import Mathlib

/-!
# Verification of the Fibonacci sequence module

Shallow embedding of `src/sequences/fibonacci.rs`: the per-domain literal
Fibonacci tables, the `nth_fibonacci` lookup functions generated by the
`fibonacci_trait_from_signed_array!` / `fibonacci_trait_from_unsigned_array!`
macros, the slice iterator returned by `fibonacci_iter`, the compile-time
table construction loop used for `isize` / `usize`, and the arbitrary
precision (`rug::Integer`) iterator and lookup.

Conventions of the embedding:
* the host is a 64-bit platform, so `usize` has 64 bits and the `isize` /
  `usize` tables coincide with the 64-bit ones;
* machine integers are `Int` (signed) or `Nat` (unsigned) together with an
  explicit width; a Rust `as usize` cast is reduction modulo `2 ^ 64` of the
  two's-complement value, and release-mode wrapping arithmetic is reduction
  into the width's representable interval;
* debug-mode overflow checks (which make Rust panic) are modelled by an
  outer `Option`: `none` is a panic, `some r` is a normal return of `r`.
-/

set_option maxRecDepth 40000

/-- Bit width of `usize` / `isize` on the host platform (64-bit). -/
def usizeBits : Nat := 64

/-- The literal Fibonacci array for `i8` from the source (`fibonacci_trait_from_signed_array!`). -/
def i8Table : List Int :=
  [0, 1, 1, 2, 3, 5,
   8, 13, 21, 34, 55, 89]

/-- The literal Fibonacci array for `u8` from the source (`fibonacci_trait_from_unsigned_array!`). -/
def u8Table : List Nat :=
  [0, 1, 1, 2, 3, 5,
   8, 13, 21, 34, 55, 89,
   144, 233]

/-- The literal Fibonacci array for `i16` from the source (`fibonacci_trait_from_signed_array!`). -/
def i16Table : List Int :=
  [0, 1, 1, 2, 3, 5,
   8, 13, 21, 34, 55, 89,
   144, 233, 377, 610, 987, 1597,
   2584, 4181, 6765, 10946, 17711, 28657]

/-- The literal Fibonacci array for `u16` from the source (`fibonacci_trait_from_unsigned_array!`). -/
def u16Table : List Nat :=
  [0, 1, 1, 2, 3, 5,
   8, 13, 21, 34, 55, 89,
   144, 233, 377, 610, 987, 1597,
   2584, 4181, 6765, 10946, 17711, 28657,
   46368]

/-- The literal Fibonacci array for `i32` from the source (`fibonacci_trait_from_signed_array!`). -/
def i32Table : List Int :=
  [0, 1, 1, 2, 3, 5,
   8, 13, 21, 34, 55, 89,
   144, 233, 377, 610, 987, 1597,
   2584, 4181, 6765, 10946, 17711, 28657,
   46368, 75025, 121393, 196418, 317811, 514229,
   832040, 1346269, 2178309, 3524578, 5702887, 9227465,
   14930352, 24157817, 39088169, 63245986, 102334155, 165580141,
   267914296, 433494437, 701408733, 1134903170, 1836311903]

/-- The literal Fibonacci array for `u32` from the source (`fibonacci_trait_from_unsigned_array!`). -/
def u32Table : List Nat :=
  [0, 1, 1, 2, 3, 5,
   8, 13, 21, 34, 55, 89,
   144, 233, 377, 610, 987, 1597,
   2584, 4181, 6765, 10946, 17711, 28657,
   46368, 75025, 121393, 196418, 317811, 514229,
   832040, 1346269, 2178309, 3524578, 5702887, 9227465,
   14930352, 24157817, 39088169, 63245986, 102334155, 165580141,
   267914296, 433494437, 701408733, 1134903170, 1836311903, 2971215073]

/-- The literal Fibonacci array for `i64` from the source (`fibonacci_trait_from_signed_array!`). -/
def i64Table : List Int :=
  [0, 1, 1, 2, 3, 5,
   8, 13, 21, 34, 55, 89,
   144, 233, 377, 610, 987, 1597,
   2584, 4181, 6765, 10946, 17711, 28657,
   46368, 75025, 121393, 196418, 317811, 514229,
   832040, 1346269, 2178309, 3524578, 5702887, 9227465,
   14930352, 24157817, 39088169, 63245986, 102334155, 165580141,
   267914296, 433494437, 701408733, 1134903170, 1836311903, 2971215073,
   4807526976, 7778742049, 12586269025, 20365011074, 32951280099, 53316291173,
   86267571272, 139583862445, 225851433717, 365435296162, 591286729879, 956722026041,
   1548008755920, 2504730781961, 4052739537881, 6557470319842, 10610209857723, 17167680177565,
   27777890035288, 44945570212853, 72723460248141, 117669030460994, 190392490709135, 308061521170129,
   498454011879264, 806515533049393, 1304969544928657, 2111485077978050, 3416454622906707, 5527939700884757,
   8944394323791464, 14472334024676221, 23416728348467685, 37889062373143906, 61305790721611591, 99194853094755497,
   160500643816367088, 259695496911122585, 420196140727489673, 679891637638612258, 1100087778366101931, 1779979416004714189,
   2880067194370816120, 4660046610375530309, 7540113804746346429]

/-- The literal Fibonacci array for `u64` from the source (`fibonacci_trait_from_unsigned_array!`). -/
def u64Table : List Nat :=
  [0, 1, 1, 2, 3, 5,
   8, 13, 21, 34, 55, 89,
   144, 233, 377, 610, 987, 1597,
   2584, 4181, 6765, 10946, 17711, 28657,
   46368, 75025, 121393, 196418, 317811, 514229,
   832040, 1346269, 2178309, 3524578, 5702887, 9227465,
   14930352, 24157817, 39088169, 63245986, 102334155, 165580141,
   267914296, 433494437, 701408733, 1134903170, 1836311903, 2971215073,
   4807526976, 7778742049, 12586269025, 20365011074, 32951280099, 53316291173,
   86267571272, 139583862445, 225851433717, 365435296162, 591286729879, 956722026041,
   1548008755920, 2504730781961, 4052739537881, 6557470319842, 10610209857723, 17167680177565,
   27777890035288, 44945570212853, 72723460248141, 117669030460994, 190392490709135, 308061521170129,
   498454011879264, 806515533049393, 1304969544928657, 2111485077978050, 3416454622906707, 5527939700884757,
   8944394323791464, 14472334024676221, 23416728348467685, 37889062373143906, 61305790721611591, 99194853094755497,
   160500643816367088, 259695496911122585, 420196140727489673, 679891637638612258, 1100087778366101931, 1779979416004714189,
   2880067194370816120, 4660046610375530309, 7540113804746346429, 12200160415121876738]

/-- The literal Fibonacci array for `i128` from the source (`fibonacci_trait_from_signed_array!`). -/
def i128Table : List Int :=
  [0, 1, 1, 2, 3, 5,
   8, 13, 21, 34, 55, 89,
   144, 233, 377, 610, 987, 1597,
   2584, 4181, 6765, 10946, 17711, 28657,
   46368, 75025, 121393, 196418, 317811, 514229,
   832040, 1346269, 2178309, 3524578, 5702887, 9227465,
   14930352, 24157817, 39088169, 63245986, 102334155, 165580141,
   267914296, 433494437, 701408733, 1134903170, 1836311903, 2971215073,
   4807526976, 7778742049, 12586269025, 20365011074, 32951280099, 53316291173,
   86267571272, 139583862445, 225851433717, 365435296162, 591286729879, 956722026041,
   1548008755920, 2504730781961, 4052739537881, 6557470319842, 10610209857723, 17167680177565,
   27777890035288, 44945570212853, 72723460248141, 117669030460994, 190392490709135, 308061521170129,
   498454011879264, 806515533049393, 1304969544928657, 2111485077978050, 3416454622906707, 5527939700884757,
   8944394323791464, 14472334024676221, 23416728348467685, 37889062373143906, 61305790721611591, 99194853094755497,
   160500643816367088, 259695496911122585, 420196140727489673, 679891637638612258, 1100087778366101931, 1779979416004714189,
   2880067194370816120, 4660046610375530309, 7540113804746346429, 12200160415121876738, 19740274219868223167, 31940434634990099905,
   51680708854858323072, 83621143489848422977, 135301852344706746049, 218922995834555169026, 354224848179261915075, 573147844013817084101,
   927372692193078999176, 1500520536206896083277, 2427893228399975082453, 3928413764606871165730, 6356306993006846248183, 10284720757613717413913,
   16641027750620563662096, 26925748508234281076009, 43566776258854844738105, 70492524767089125814114, 114059301025943970552219, 184551825793033096366333,
   298611126818977066918552, 483162952612010163284885, 781774079430987230203437, 1264937032042997393488322, 2046711111473984623691759, 3311648143516982017180081,
   5358359254990966640871840, 8670007398507948658051921, 14028366653498915298923761, 22698374052006863956975682, 36726740705505779255899443, 59425114757512643212875125,
   96151855463018422468774568, 155576970220531065681649693, 251728825683549488150424261, 407305795904080553832073954, 659034621587630041982498215, 1066340417491710595814572169,
   1725375039079340637797070384, 2791715456571051233611642553, 4517090495650391871408712937, 7308805952221443105020355490, 11825896447871834976429068427, 19134702400093278081449423917,
   30960598847965113057878492344, 50095301248058391139327916261, 81055900096023504197206408605, 131151201344081895336534324866, 212207101440105399533740733471, 343358302784187294870275058337,
   555565404224292694404015791808, 898923707008479989274290850145, 1454489111232772683678306641953, 2353412818241252672952597492098, 3807901929474025356630904134051, 6161314747715278029583501626149,
   9969216677189303386214405760200, 16130531424904581415797907386349, 26099748102093884802012313146549, 42230279526998466217810220532898, 68330027629092351019822533679447, 110560307156090817237632754212345,
   178890334785183168257455287891792, 289450641941273985495088042104137, 468340976726457153752543329995929, 757791618667731139247631372100066, 1226132595394188293000174702095995, 1983924214061919432247806074196061,
   3210056809456107725247980776292056, 5193981023518027157495786850488117, 8404037832974134882743767626780173, 13598018856492162040239554477268290, 22002056689466296922983322104048463, 35600075545958458963222876581316753,
   57602132235424755886206198685365216, 93202207781383214849429075266681969, 150804340016807970735635273952047185, 244006547798191185585064349218729154, 394810887814999156320699623170776339, 638817435613190341905763972389505493,
   1033628323428189498226463595560281832, 1672445759041379840132227567949787325, 2706074082469569338358691163510069157, 4378519841510949178490918731459856482, 7084593923980518516849609894969925639, 11463113765491467695340528626429782121,
   18547707689471986212190138521399707760, 30010821454963453907530667147829489881, 48558529144435440119720805669229197641, 78569350599398894027251472817058687522, 127127879743834334146972278486287885163]

/-- The literal Fibonacci array for `u128` from the source (`fibonacci_trait_from_unsigned_array!`). -/
def u128Table : List Nat :=
  [0, 1, 1, 2, 3, 5,
   8, 13, 21, 34, 55, 89,
   144, 233, 377, 610, 987, 1597,
   2584, 4181, 6765, 10946, 17711, 28657,
   46368, 75025, 121393, 196418, 317811, 514229,
   832040, 1346269, 2178309, 3524578, 5702887, 9227465,
   14930352, 24157817, 39088169, 63245986, 102334155, 165580141,
   267914296, 433494437, 701408733, 1134903170, 1836311903, 2971215073,
   4807526976, 7778742049, 12586269025, 20365011074, 32951280099, 53316291173,
   86267571272, 139583862445, 225851433717, 365435296162, 591286729879, 956722026041,
   1548008755920, 2504730781961, 4052739537881, 6557470319842, 10610209857723, 17167680177565,
   27777890035288, 44945570212853, 72723460248141, 117669030460994, 190392490709135, 308061521170129,
   498454011879264, 806515533049393, 1304969544928657, 2111485077978050, 3416454622906707, 5527939700884757,
   8944394323791464, 14472334024676221, 23416728348467685, 37889062373143906, 61305790721611591, 99194853094755497,
   160500643816367088, 259695496911122585, 420196140727489673, 679891637638612258, 1100087778366101931, 1779979416004714189,
   2880067194370816120, 4660046610375530309, 7540113804746346429, 12200160415121876738, 19740274219868223167, 31940434634990099905,
   51680708854858323072, 83621143489848422977, 135301852344706746049, 218922995834555169026, 354224848179261915075, 573147844013817084101,
   927372692193078999176, 1500520536206896083277, 2427893228399975082453, 3928413764606871165730, 6356306993006846248183, 10284720757613717413913,
   16641027750620563662096, 26925748508234281076009, 43566776258854844738105, 70492524767089125814114, 114059301025943970552219, 184551825793033096366333,
   298611126818977066918552, 483162952612010163284885, 781774079430987230203437, 1264937032042997393488322, 2046711111473984623691759, 3311648143516982017180081,
   5358359254990966640871840, 8670007398507948658051921, 14028366653498915298923761, 22698374052006863956975682, 36726740705505779255899443, 59425114757512643212875125,
   96151855463018422468774568, 155576970220531065681649693, 251728825683549488150424261, 407305795904080553832073954, 659034621587630041982498215, 1066340417491710595814572169,
   1725375039079340637797070384, 2791715456571051233611642553, 4517090495650391871408712937, 7308805952221443105020355490, 11825896447871834976429068427, 19134702400093278081449423917,
   30960598847965113057878492344, 50095301248058391139327916261, 81055900096023504197206408605, 131151201344081895336534324866, 212207101440105399533740733471, 343358302784187294870275058337,
   555565404224292694404015791808, 898923707008479989274290850145, 1454489111232772683678306641953, 2353412818241252672952597492098, 3807901929474025356630904134051, 6161314747715278029583501626149,
   9969216677189303386214405760200, 16130531424904581415797907386349, 26099748102093884802012313146549, 42230279526998466217810220532898, 68330027629092351019822533679447, 110560307156090817237632754212345,
   178890334785183168257455287891792, 289450641941273985495088042104137, 468340976726457153752543329995929, 757791618667731139247631372100066, 1226132595394188293000174702095995, 1983924214061919432247806074196061,
   3210056809456107725247980776292056, 5193981023518027157495786850488117, 8404037832974134882743767626780173, 13598018856492162040239554477268290, 22002056689466296922983322104048463, 35600075545958458963222876581316753,
   57602132235424755886206198685365216, 93202207781383214849429075266681969, 150804340016807970735635273952047185, 244006547798191185585064349218729154, 394810887814999156320699623170776339, 638817435613190341905763972389505493,
   1033628323428189498226463595560281832, 1672445759041379840132227567949787325, 2706074082469569338358691163510069157, 4378519841510949178490918731459856482, 7084593923980518516849609894969925639, 11463113765491467695340528626429782121,
   18547707689471986212190138521399707760, 30010821454963453907530667147829489881, 48558529144435440119720805669229197641, 78569350599398894027251472817058687522, 127127879743834334146972278486287885163, 205697230343233228174223751303346572685,
   332825110087067562321196029789634457848]

/-- Translation of `checked_add` on a bounded unsigned-range value (the
`isize` / `usize` compile-time loops only ever add non-negative values):
`some (a + b)` when the sum fits below `max`, otherwise `none`. -/
def checkedAddN (max a b : Nat) : Option Nat :=
  if a + b ≤ max then some (a + b) else none

/-- Translation of the compile-time `while a.is_some()` loop that builds the
`isize` / `usize` arrays in the source: emit `a`, then replace `(a, b)` by
`(b, a checked_add b)`.  The loop terminates on its own once `a` becomes
`none`; the `fuel` argument is only an upper bound on the iteration count
(200 is far above the at most 95 iterations any 64-bit domain needs). -/
def fibTableLoop (max : Nat) : Nat → Option Nat → Option Nat → List Nat
  | 0, _, _ => []
  | fuel + 1, a, b =>
    match a with
    | none => []
    | some x =>
      x :: fibTableLoop max fuel b
        (match a, b with
         | some y, some z => checkedAddN max y z
         | _, _ => none)

/-- The `usize` Fibonacci array, computed by the translated compile-time loop
with `usize::MAX = 2 ^ 64 - 1` on the 64-bit host. -/
def usizeTable : List Nat := fibTableLoop (2 ^ 64 - 1) 200 (some 0) (some 1)

/-- The `isize` Fibonacci array, computed by the translated compile-time loop
with `isize::MAX = 2 ^ 63 - 1` on the 64-bit host (the loop only ever holds
non-negative values, so the signed array is the unsigned computation cast to
`Int`). -/
def isizeTable : List Int := (fibTableLoop (2 ^ 63 - 1) 200 (some 0) (some 1)).map (fun x => (x : Int))

/-- Rust `expr as usize` applied to a signed value of any fixed width:
two's-complement reinterpretation / truncation, i.e. the value modulo
`2 ^ 64` (sign extension for widths below 64, truncation to the low 64 bits
for `i128`). -/
def castToUsize (x : Int) : Nat := (x % (2 ^ usizeBits : Int)).toNat

/-- Release-mode (wrapping) reduction of an integer into the representable
interval `[-2 ^ (w - 1), 2 ^ (w - 1) - 1]` of a `w`-bit signed type. -/
def wrapToWidth (w : Nat) (x : Int) : Int :=
  (x + 2 ^ (w - 1)) % 2 ^ w - 2 ^ (w - 1)

/-- Debug-mode (checked) negation on a `w`-bit signed type: `some (-x)` when
the negation is representable, `none` (an overflow panic) otherwise. -/
def checkedNeg (w : Nat) (x : Int) : Option Int :=
  if -(2 ^ (w - 1) : Int) ≤ -x ∧ -x ≤ 2 ^ (w - 1) - 1 then some (-x) else none

/-- `nth_fibonacci` from `fibonacci_trait_from_signed_array!`, release-mode
semantics (arithmetic overflow wraps).  `w` is the bit width of the type and
`t` its table.  For `n < 0` the code computes `array.get(-*n as usize)` and
negates the element when `n & 1 == 0` (an even low bit, i.e. `n % 2 = 0`);
for `n ≥ 0` it returns `array.get(*n as usize)`. -/
def nth_fibonacci_signed (w : Nat) (t : List Int) (n : Int) : Option Int :=
  if n < 0 then
    let element := t.get? (castToUsize (wrapToWidth w (-n)))
    if n % 2 = 0 then element.map (fun x => wrapToWidth w (-x)) else element
  else
    t.get? (castToUsize n)

/-- `nth_fibonacci` from `fibonacci_trait_from_signed_array!`, debug-mode
semantics: both negations (`-*n` and `Neg::neg` on the element) are checked
and a failed check is a panic, modelled as the outer `none`. -/
def nth_fibonacci_signed_dbg (w : Nat) (t : List Int) (n : Int) : Option (Option Int) :=
  if n < 0 then
    match checkedNeg w n with
    | none => none
    | some m =>
      match t.get? (castToUsize m) with
      | none => some none
      | some x =>
        if n % 2 = 0 then
          match checkedNeg w x with
          | none => none
          | some y => some (some y)
        else some (some x)
  else some (t.get? (castToUsize n))

/-- `nth_fibonacci` from `fibonacci_trait_from_unsigned_array!`:
`array.get(*n as usize)`, where the cast truncates modulo `2 ^ 64`. -/
def nth_fibonacci_unsigned (t : List Nat) (n : Nat) : Option Nat :=
  t.get? (n % 2 ^ usizeBits)

/-- One `next()` call of the iterator returned by `fibonacci_iter` for the
table-backed domains (`array.iter().copied()`): emit the head of the
remaining slice, or `none` forever once the slice is empty. -/
def cursorNext {α : Type} (t : List α) : Option α × List α :=
  match t with
  | [] => (none, [])
  | x :: xs => (some x, xs)

/-- State of a table-backed cursor after `k` calls to `next()`. -/
def cursorAdvance {α : Type} : Nat → List α → List α
  | 0, t => t
  | k + 1, t => cursorAdvance k (cursorNext t).2

/-- The value produced by the `(k + 1)`-st `next()` call on a fresh cursor
over `t` (0-indexed: the `k`-th yielded element, as `Iterator::nth(k)`). -/
def cursorOutputAt {α : Type} (t : List α) (k : Nat) : Option α :=
  (cursorNext (cursorAdvance k t)).1

/-- State of `RugIter` (the `rug::Integer` iterator): the two accumulators
and the flag saying which one the next call emits. -/
structure RugState where
  a : Int
  b : Int
  aNext : Bool
deriving DecidableEq

/-- `RugIter::new()`: `a = 0`, `b = 1`, `a_next = true`. -/
def RugState.start : RugState := ⟨0, 1, true⟩

/-- `RugIter::next()`: emit `a` and do `a += b` when `a_next` is set,
otherwise emit `b` and do `b += a`; the flag flips every call.  The call
always returns `some`. -/
def rugNext (s : RugState) : Option Int × RugState :=
  if s.aNext then (some s.a, ⟨s.a + s.b, s.b, false⟩)
  else (some s.b, ⟨s.a, s.b + s.a, true⟩)

/-- `RugIter` state after `k` calls to `next()` on a fresh iterator. -/
def rugAdvance : Nat → RugState → RugState
  | 0, s => s
  | k + 1, s => (rugNext (rugAdvance k s)).2

/-- The value produced by the `(k + 1)`-st `next()` call on a fresh
`RugIter`, i.e. `Self::fibonacci_iter().nth(k)`. -/
def rugOutputAt (k : Nat) : Option Int :=
  (rugNext (rugAdvance k RugState.start)).1

/-- `rug::Integer::to_usize()`: `some` of the value exactly when it fits in
`[0, 2 ^ 64 - 1]`. -/
def rugToUsize (n : Int) : Option Nat :=
  if 0 ≤ n ∧ n ≤ (2 ^ usizeBits - 1 : Int) then some n.toNat else none

/-- `nth_fibonacci` of the `rug::Integer` implementation: for `n < 0`,
convert `-n` to a `usize` `m`, take the `m`-th iterator value and negate it
when `m & 1 == 1` (odd magnitude); for `n ≥ 0`, convert `n` and take the
`n`-th iterator value. -/
def rug_nth_fibonacci (n : Int) : Option Int :=
  if n < 0 then
    (rugToUsize (-n)).bind (fun m =>
      (rugOutputAt m).map (fun result => if m % 2 = 1 then -result else result))
  else
    (rugToUsize n).bind (fun m => rugOutputAt m)

/-- The six signed fixed-width domains, as width-table pairs (`isize` is the
64-bit host word). -/
def signedDomains : List (Nat × List Int) :=
  [(8, i8Table), (16, i16Table), (32, i32Table),
   (64, i64Table), (128, i128Table), (64, isizeTable)]

/-- The six unsigned fixed-width domains, as width-table pairs (`usize` is
the 64-bit host word). -/
def unsignedDomains : List (Nat × List Nat) :=
  [(8, u8Table), (16, u16Table), (32, u32Table),
   (64, u64Table), (128, u128Table), (64, usizeTable)]



/-- Pair-stepping of the Fibonacci recurrence: `k` steps of
`(a, b) ↦ (b, a + b)` from seeds `(a, b)`. -/
def fibPairStep {α : Type} [Add α] (a b : α) (k : Nat) : α × α :=
  (fun p : α × α => (p.2, p.1 + p.2))^[k] (a, b)

/-- The `k`-th element of the Fibonacci-style recurrence seeded with
`(a, b)`. -/
def fibAt {α : Type} [Add α] (a b : α) (k : Nat) : α := (fibPairStep a b k).1

theorem fibPairStep_shift {α : Type} [Add α] (a b : α) (k : Nat) :
    fibPairStep a b (k + 1) = fibPairStep b (a + b) k := by
  simp only [fibPairStep, Function.iterate_succ_apply]

theorem fibAt_shift {α : Type} [Add α] (a b : α) (k : Nat) :
    fibAt a b (k + 1) = fibAt b (a + b) k := by
  simp only [fibAt, fibPairStep_shift]

theorem fibPairStep_nat_fib :
    ∀ k : Nat, fibPairStep (0 : Nat) 1 k = (Nat.fib k, Nat.fib (k + 1)) := by
  intro k
  induction k with
  | zero => rfl
  | succ n ih =>
    rw [fibPairStep, Function.iterate_succ_apply', ← fibPairStep, ih]
    simp [Nat.fib_add_two]

theorem fibAt_nat_fib (k : Nat) : fibAt (0 : Nat) 1 k = Nat.fib k := by
  simp only [fibAt, fibPairStep_nat_fib]

theorem fibPairStep_int_fib :
    ∀ k : Nat, fibPairStep (0 : Int) 1 k = ((Nat.fib k : Int), (Nat.fib (k + 1) : Int)) := by
  intro k
  induction k with
  | zero => simp [fibPairStep]
  | succ n ih =>
    rw [fibPairStep, Function.iterate_succ_apply', ← fibPairStep, ih]
    simp only [Prod.mk.injEq, Nat.fib_add_two]
    refine ⟨trivial, ?_⟩
    push_cast
    ring

theorem fibAt_int_fib (k : Nat) : fibAt (0 : Int) 1 k = (Nat.fib k : Int) := by
  simp only [fibAt, fibPairStep_int_fib]

/-- Linear-time certificate that a list is the maximal representable
Fibonacci-recurrence run from seeds `(a, b)`: each element equals the running
`a` and is at most `max`, and the running value reached when the list ends
(the first excluded value) exceeds `max`. -/
def fibChainCheck {α : Type} [Add α] [LinearOrder α] : α → α → α → List α → Bool
  | max, a, _, [] => decide (max < a)
  | max, a, b, x :: xs =>
    (decide (x = a) && decide (a ≤ max)) && fibChainCheck max b (a + b) xs

theorem fibChainCheck_sound {α : Type} [Add α] [LinearOrder α] (max : α) :
    ∀ (t : List α) (a b : α), fibChainCheck max a b t = true →
      (∀ i : Nat, i < t.length → t.get? i = some (fibAt a b i)) ∧
      (∀ x ∈ t, x ≤ max) ∧ max < fibAt a b t.length := by
  intro t
  induction t with
  | nil =>
    intro a b h
    refine ⟨by simp, by simp, ?_⟩
    simpa [fibChainCheck, fibAt, fibPairStep] using h
  | cons x xs ih =>
    intro a b h
    simp only [fibChainCheck, Bool.and_eq_true, decide_eq_true_eq] at h
    obtain ⟨⟨hx, hle⟩, hrest⟩ := h
    obtain ⟨h1, h2, h3⟩ := ih b (a + b) hrest
    refine ⟨?_, ?_, ?_⟩
    · intro i hi
      cases i with
      | zero =>
        simp only [List.get?, hx]
        rfl
      | succ j =>
        have hj : j < xs.length := by simpa [List.length_cons] using hi
        simp only [List.get?, h1 j hj, fibAt_shift]
    · intro y hy
      rcases List.mem_cons.1 hy with rfl | hy2
      · exact hx ▸ hle
      · exact h2 y hy2
    · simpa [List.length_cons, fibAt_shift] using h3

theorem cursorAdvance_nil {α : Type} : ∀ k : Nat, cursorAdvance k ([] : List α) = [] := by
  intro k
  induction k with
  | zero => rfl
  | succ n ih => simpa [cursorAdvance, cursorNext] using ih

theorem cursorAdvance_of_length_le {α : Type} :
    ∀ (k : Nat) (t : List α), t.length ≤ k → cursorAdvance k t = [] := by
  intro k
  induction k with
  | zero =>
    intro t h
    rw [List.eq_nil_of_length_eq_zero (Nat.le_zero.1 h)]
    rfl
  | succ n ih =>
    intro t h
    cases t with
    | nil => exact cursorAdvance_nil (n + 1)
    | cons x xs => exact ih xs (by simpa [List.length_cons] using h)

theorem cursorOutputAt_eq_get {α : Type} :
    ∀ (k : Nat) (t : List α), cursorOutputAt t k = t.get? k := by
  intro k
  induction k with
  | zero =>
    intro t
    cases t <;> rfl
  | succ n ih =>
    intro t
    cases t with
    | nil =>
      simp only [cursorOutputAt, cursorAdvance, cursorNext, cursorAdvance_nil]
      rfl
    | cons x xs =>
      simpa [cursorOutputAt, cursorAdvance, cursorNext] using ih xs

theorem wrapToWidth_eq_self (w : Nat) (hw : 0 < w) (x : Int)
    (h1 : -(2 ^ (w - 1) : Int) ≤ x) (h2 : x ≤ 2 ^ (w - 1) - 1) :
    wrapToWidth w x = x := by
  have h2w : (2 : Int) ^ w = 2 ^ (w - 1) * 2 := by
    conv_lhs => rw [show w = (w - 1) + 1 by omega]
    rw [pow_succ]
  unfold wrapToWidth
  rw [Int.emod_eq_of_lt (by omega) (by omega)]
  omega

theorem castToUsize_coe (n : Nat) (h : n < 2 ^ usizeBits) : castToUsize (n : Int) = n := by
  unfold castToUsize
  rw [Int.emod_eq_of_lt (by positivity) (by exact_mod_cast h)]
  exact Int.toNat_ofNat n

/-- Evaluation of the release-mode signed lookup at a non-negative index
below `2 ^ 64`: the `as usize` cast is the identity and the positive branch
is taken. -/
theorem nth_fibonacci_signed_coe (w : Nat) (t : List Int) (n : Nat)
    (h : n < 2 ^ usizeBits) :
    nth_fibonacci_signed w t (n : Int) = t.get? n := by
  unfold nth_fibonacci_signed
  rw [if_neg (by omega), castToUsize_coe n h]

/-- Evaluation of the release-mode signed lookup at a negative index `-n`
whose magnitude is representable in the width: the wrapped negation is the
exact negation and the parity of the Rust `n & 1` test matches the parity of
the magnitude. -/
theorem nth_fibonacci_signed_neg_eval (w : Nat) (t : List Int) (n : Nat)
    (hw : 0 < w) (h0 : 0 < n) (hmag : (n : Int) ≤ 2 ^ (w - 1) - 1)
    (h64 : n < 2 ^ usizeBits) :
    nth_fibonacci_signed w t (-(n : Int)) =
      (if n % 2 = 0 then (t.get? n).map (fun x => wrapToWidth w (-x)) else t.get? n) := by
  unfold nth_fibonacci_signed
  have hpow : (0 : Int) ≤ 2 ^ (w - 1) := by positivity
  rw [if_pos (by omega), neg_neg,
    wrapToWidth_eq_self w hw (n : Int) (by omega) hmag,
    castToUsize_coe n h64]
  rcases Nat.even_or_odd n with he | ho
  · have hn2 : n % 2 = 0 := Nat.even_iff.1 he
    have hz : (-(n : Int)) % 2 = 0 := by omega
    rw [if_pos hz, if_pos hn2]
  · have hn2 : n % 2 = 1 := Nat.odd_iff.1 ho
    have hz : ¬(-(n : Int)) % 2 = 0 := by omega
    rw [if_neg hz, if_neg (by omega)]

/-- Closed form for the `RugIter` state after `k` calls: the accumulators
hold consecutive Fibonacci numbers, with the flag tracking the parity of
`k`. -/
theorem rugAdvance_start :
    ∀ k : Nat, rugAdvance k RugState.start =
      if k % 2 = 0 then
        RugState.mk (Nat.fib k : Int) (Nat.fib (k + 1) : Int) true
      else
        RugState.mk (Nat.fib (k + 1) : Int) (Nat.fib k : Int) false := by
  intro k
  induction k with
  | zero => simp [rugAdvance, RugState.start]
  | succ n ih =>
    have hstep : rugAdvance (n + 1) RugState.start = (rugNext (rugAdvance n RugState.start)).2 := rfl
    rw [hstep, ih]
    have hfib : ((Nat.fib (n + 1 + 1) : Nat) : Int) = (Nat.fib n : Int) + (Nat.fib (n + 1) : Int) := by
      rw [Nat.fib_add_two]
      push_cast
      ring
    rcases Nat.even_or_odd n with he | ho
    · have h0 : n % 2 = 0 := Nat.even_iff.1 he
      rw [if_pos h0, if_neg (by omega)]
      have hred : (rugNext (RugState.mk (Nat.fib n : Int) (Nat.fib (n + 1) : Int) true)).2 =
          RugState.mk ((Nat.fib n : Int) + (Nat.fib (n + 1) : Int)) (Nat.fib (n + 1) : Int) false := rfl
      rw [hred, hfib]
    · have h1 : n % 2 = 1 := Nat.odd_iff.1 ho
      rw [if_neg (by omega), if_pos (by omega)]
      have hred : (rugNext (RugState.mk (Nat.fib (n + 1) : Int) (Nat.fib n : Int) false)).2 =
          RugState.mk (Nat.fib (n + 1) : Int) ((Nat.fib n : Int) + (Nat.fib (n + 1) : Int)) true := rfl
      rw [hred, hfib]

/-- Every call of a fresh `RugIter` yields the true Fibonacci number of its
index. -/
theorem rugOutputAt_eq_fib (k : Nat) : rugOutputAt k = some ((Nat.fib k : Int)) := by
  unfold rugOutputAt
  rw [rugAdvance_start]
  rcases Nat.even_or_odd k with he | ho
  · rw [if_pos (Nat.even_iff.1 he)]
    rfl
  · have h1 : k % 2 = 1 := Nat.odd_iff.1 ho
    rw [if_neg (by omega)]
    rfl

/-- The non-negative branch of the `rug::Integer` lookup is literally
`Iterator::nth` on a fresh iterator. -/
theorem rug_nth_fibonacci_coe (n : Nat) (h : (n : Int) ≤ 2 ^ usizeBits - 1) :
    rug_nth_fibonacci (n : Int) = rugOutputAt n := by
  unfold rug_nth_fibonacci rugToUsize
  rw [if_neg (by omega), if_pos ⟨by positivity, h⟩]
  simp

/-- Generic form of the negative-index sign rule for a table-backed signed
domain whose table holds only values in `[0, max]` and fits well inside the
representable range. -/
theorem signed_rule_of_bounds (w : Nat) (t : List Int) (hw : 0 < w)
    (hlen64 : t.length ≤ 2 ^ usizeBits)
    (hb : ∀ x ∈ t, 0 ≤ x ∧ x ≤ 2 ^ (w - 1) - 1)
    (hlenmax : (t.length : Int) ≤ 2 ^ (w - 1) - 1)
    (n : Nat) (h0 : 0 < n) (hn : n < t.length) :
    (n % 2 = 1 →
      nth_fibonacci_signed w t (-(n : Int)) = nth_fibonacci_signed w t (n : Int)) ∧
    (n % 2 = 0 →
      nth_fibonacci_signed w t (-(n : Int)) =
        (nth_fibonacci_signed w t (n : Int)).map (fun x => -x)) := by
  have h64 : n < 2 ^ usizeBits := lt_of_lt_of_le hn hlen64
  have hmag : (n : Int) ≤ 2 ^ (w - 1) - 1 := by
    have hcast : (n : Int) < (t.length : Int) := by exact_mod_cast hn
    omega
  have hpos := nth_fibonacci_signed_coe w t n h64
  have hnegv := nth_fibonacci_signed_neg_eval w t n hw h0 hmag h64
  obtain ⟨x, hx⟩ : ∃ x, t.get? n = some x := ⟨t.get ⟨n, hn⟩, List.get?_eq_get hn⟩
  obtain ⟨hx0, hxmax⟩ := hb x (List.get?_mem hx)
  have hpow : (0 : Int) ≤ 2 ^ (w - 1) := by positivity
  have hwrap : wrapToWidth w (-x) = -x :=
    wrapToWidth_eq_self w hw (-x) (by omega) (by omega)
  constructor
  · intro hodd
    rw [hnegv, hpos, if_neg (by omega)]
  · intro heven
    rw [hnegv, hpos, if_pos heven, hx]
    simp [hwrap]

/-- C3: for every signed fixed-width domain (`i8`, `i16`, `i32`, `i64`,
`i128`, `isize`) and every positive in-range table index `n`,
`nth_fibonacci(-n)` equals `nth_fibonacci(n)` when `n` is odd and equals its
negation when `n` is even. -/
theorem signed_negative_index_sign_rule :
    ∀ p ∈ signedDomains, ∀ n : Nat, 0 < n → n < p.2.length →
      ((n % 2 = 1 →
          nth_fibonacci_signed p.1 p.2 (-(n : Int)) = nth_fibonacci_signed p.1 p.2 (n : Int)) ∧
       (n % 2 = 0 →
          nth_fibonacci_signed p.1 p.2 (-(n : Int)) =
            (nth_fibonacci_signed p.1 p.2 (n : Int)).map (fun x => -x))) := by
  intro p hp n h0 hn
  simp only [signedDomains, List.mem_cons, List.not_mem_nil, or_false] at hp
  rcases hp with rfl | rfl | rfl | rfl | rfl | rfl <;>
    exact signed_rule_of_bounds _ _ (by norm_num) (by decide) (by decide) (by decide) n h0 hn

/-- Witness for C3 at the `i8` domain and index 10 (even, so the lookup at
`-10` is the negated lookup at `10`). -/
theorem signed_negative_index_sign_rule_witness :
    nth_fibonacci_signed 8 i8Table (-((10 : Nat) : Int)) =
      (nth_fibonacci_signed 8 i8Table ((10 : Nat) : Int)).map (fun x => -x) :=
  (signed_negative_index_sign_rule (8, i8Table) (by decide) 10 (by decide) (by decide)).2 (by decide)

/-- C5: for every fixed-width domain and every index `n` in `[0, length)`,
and for the arbitrary-precision domain and every `n` representable as a host
index, `nth_fibonacci(n)` equals the `n`-th value yielded by a fresh
`fibonacci_iter()`. -/
theorem lookup_agrees_with_enumerate :
    (∀ p ∈ signedDomains, ∀ n : Nat, n < p.2.length →
        nth_fibonacci_signed p.1 p.2 (n : Int) = cursorOutputAt p.2 n) ∧
    (∀ p ∈ unsignedDomains, ∀ n : Nat, n < p.2.length →
        nth_fibonacci_unsigned p.2 n = cursorOutputAt p.2 n) ∧
    (∀ n : Nat, (n : Int) ≤ 2 ^ usizeBits - 1 →
        rug_nth_fibonacci (n : Int) = rugOutputAt n) := by
  refine ⟨?_, ?_, ?_⟩
  · intro p hp n hn
    rw [cursorOutputAt_eq_get]
    simp only [signedDomains, List.mem_cons, List.not_mem_nil, or_false] at hp
    rcases hp with rfl | rfl | rfl | rfl | rfl | rfl <;>
      exact nth_fibonacci_signed_coe _ _ n (lt_of_lt_of_le hn (by decide))
  · intro p hp n hn
    rw [cursorOutputAt_eq_get]
    unfold nth_fibonacci_unsigned
    simp only [unsignedDomains, List.mem_cons, List.not_mem_nil, or_false] at hp
    rcases hp with rfl | rfl | rfl | rfl | rfl | rfl <;>
      rw [Nat.mod_eq_of_lt (lt_of_lt_of_le hn (by decide))]
  · intro n h
    exact rug_nth_fibonacci_coe n h

/-- Witness for C5 at the `u8` domain and index 13 (the last entry). -/
theorem lookup_agrees_with_enumerate_witness :
    nth_fibonacci_unsigned u8Table 13 = cursorOutputAt u8Table 13 :=
  lookup_agrees_with_enumerate.2.1 (8, u8Table) (by decide) 13 (by decide)

/-- C9: a table-backed cursor (over any element type, so in particular over
every signed and unsigned table) that has consumed at least its table's
length yields nothing on every further advancement, and for each of the
twelve fixed-width domains a cursor that has consumed the whole table stays
empty forever while a freshly created cursor restarts at index 0 with value
`table[0] = 0` (each fresh cursor is an independent value, so no state is
shared). -/
theorem exhausted_cursor_stays_empty :
    (∀ (α : Type) (t : List α) (k j : Nat), t.length ≤ k → cursorOutputAt t (k + j) = none) ∧
    (∀ p ∈ signedDomains,
      (∀ j : Nat, cursorOutputAt p.2 (p.2.length + j) = none) ∧
      cursorOutputAt p.2 0 = some 0) ∧
    (∀ p ∈ unsignedDomains,
      (∀ j : Nat, cursorOutputAt p.2 (p.2.length + j) = none) ∧
      cursorOutputAt p.2 0 = some 0) := by
  have hgen : ∀ (α : Type) (t : List α) (k j : Nat), t.length ≤ k →
      cursorOutputAt t (k + j) = none := by
    intro α t k j h
    rw [cursorOutputAt_eq_get]
    exact List.get?_eq_none.2 (by omega)
  refine ⟨hgen, ?_, ?_⟩
  · intro p hp
    refine ⟨fun j => hgen Int p.2 p.2.length j le_rfl, ?_⟩
    simp only [signedDomains, List.mem_cons, List.not_mem_nil, or_false] at hp
    rcases hp with rfl | rfl | rfl | rfl | rfl | rfl <;> decide
  · intro p hp
    refine ⟨fun j => hgen Nat p.2 p.2.length j le_rfl, ?_⟩
    simp only [unsignedDomains, List.mem_cons, List.not_mem_nil, or_false] at hp
    rcases hp with rfl | rfl | rfl | rfl | rfl | rfl <;> decide

/-- Witness for C9: a cursor over the `i8` table that has consumed all 12
entries stays empty three further calls later, and an exhausted cursor over
the unsigned `u8` table stays empty two further calls later. -/
theorem exhausted_cursor_stays_empty_witness :
    cursorOutputAt i8Table (12 + 3) = none ∧
    cursorOutputAt u8Table (u8Table.length + 2) = none :=
  ⟨exhausted_cursor_stays_empty.1 Int i8Table 12 3 (by decide),
   (exhausted_cursor_stays_empty.2.2 (8, u8Table) (by decide)).1 2⟩

/-- C10: for every signed fixed-width domain every table entry lies in
`[0, max]`, so for every positive in-range magnitude the looked-up element
negates without overflow (the checked negation succeeds and the result is
representable). -/
theorem signed_table_negation_never_overflows :
    ∀ p ∈ signedDomains,
      (∀ x ∈ p.2, 0 ≤ x ∧ x ≤ 2 ^ (p.1 - 1) - 1) ∧
      (∀ n : Nat, 0 < n → n < p.2.length →
        ∃ x, p.2.get? n = some x ∧ checkedNeg p.1 x = some (-x) ∧
          -(2 ^ (p.1 - 1) : Int) ≤ -x ∧ -x ≤ 2 ^ (p.1 - 1) - 1) := by
  intro p hp
  have hbp : ∀ x ∈ p.2, 0 ≤ x ∧ x ≤ 2 ^ (p.1 - 1) - 1 := by
    simp only [signedDomains, List.mem_cons, List.not_mem_nil, or_false] at hp
    rcases hp with rfl | rfl | rfl | rfl | rfl | rfl <;> decide
  refine ⟨hbp, ?_⟩
  intro n h0 hn
  obtain ⟨x, hx⟩ : ∃ x, p.2.get? n = some x := ⟨p.2.get ⟨n, hn⟩, List.get?_eq_get hn⟩
  obtain ⟨hx0, hxmax⟩ := hbp x (List.get?_mem hx)
  have hpow : (0 : Int) ≤ 2 ^ (p.1 - 1) := by positivity
  refine ⟨x, hx, ?_, by omega, by omega⟩
  unfold checkedNeg
  rw [if_pos ⟨by omega, by omega⟩]

/-- Witness for C10 at the `i8` domain and index 10. -/
theorem signed_table_negation_never_overflows_witness :
    ∃ x, i8Table.get? 10 = some x ∧ checkedNeg 8 x = some (-x) ∧
      -(2 ^ (8 - 1) : Int) ≤ -x ∧ -x ≤ 2 ^ (8 - 1) - 1 :=
  (signed_table_negation_never_overflows (8, i8Table) (by decide)).2 10 (by decide) (by decide)

/-- C4: for every fixed-width domain the table is exactly the representable
prefix of the true Fibonacci sequence (`table[i] = fib i`, so `table[0] = 0`,
`table[1] = 1` and the recurrence holds exactly), every entry is at most the
domain's maximum, and the table is maximal: the next Fibonacci number
`fib length` already exceeds the maximum. -/
theorem tables_are_maximal_fib_runs :
    (∀ p ∈ signedDomains,
        (∀ i : Nat, i < p.2.length → p.2.get? i = some ((Nat.fib i : Int))) ∧
        (∀ x ∈ p.2, x ≤ 2 ^ (p.1 - 1) - 1) ∧
        ((2 : Int) ^ (p.1 - 1) - 1 < (Nat.fib p.2.length : Int))) ∧
    (∀ p ∈ unsignedDomains,
        (∀ i : Nat, i < p.2.length → p.2.get? i = some (Nat.fib i)) ∧
        (∀ x ∈ p.2, x ≤ 2 ^ p.1 - 1) ∧
        (2 ^ p.1 - 1 < Nat.fib p.2.length)) := by
  constructor
  · intro p hp
    have key : fibChainCheck ((2 : Int) ^ (p.1 - 1) - 1) 0 1 p.2 = true := by
      simp only [signedDomains, List.mem_cons, List.not_mem_nil, or_false] at hp
      rcases hp with rfl | rfl | rfl | rfl | rfl | rfl <;> decide
    obtain ⟨h1, h2, h3⟩ := fibChainCheck_sound ((2 : Int) ^ (p.1 - 1) - 1) p.2 0 1 key
    refine ⟨fun i hi => ?_, h2, ?_⟩
    · rw [h1 i hi, fibAt_int_fib]
    · rw [← fibAt_int_fib]
      exact h3
  · intro p hp
    have key : fibChainCheck (2 ^ p.1 - 1) 0 1 p.2 = true := by
      simp only [unsignedDomains, List.mem_cons, List.not_mem_nil, or_false] at hp
      rcases hp with rfl | rfl | rfl | rfl | rfl | rfl <;> decide
    obtain ⟨h1, h2, h3⟩ := fibChainCheck_sound (2 ^ p.1 - 1) p.2 0 1 key
    refine ⟨fun i hi => ?_, h2, ?_⟩
    · rw [h1 i hi, fibAt_nat_fib]
    · rw [← fibAt_nat_fib]
      exact h3

/-- Witness for C4: the last `i8` entry is the true 11th Fibonacci number. -/
theorem tables_are_maximal_fib_runs_witness :
    i8Table.get? 11 = some ((Nat.fib 11 : Int)) :=
  (tables_are_maximal_fib_runs.1 (8, i8Table) (by decide)).1 11 (by decide)

/-- C7: the concrete spec scenarios.  The fresh `i8` iterator yields exactly
`0, 1, 1, 2, 3, 5, 8, 13, 21, 34, 55, 89` (its table) and then ends;
`i8::nth_fibonacci(10) = Some(55)`, `i8::nth_fibonacci(-10) = Some(-55)`,
`i8::nth_fibonacci(12) = None`; `i32::nth_fibonacci(10) = Some(55)` and
`i32::nth_fibonacci(50) = None`. -/
theorem concrete_scenarios_i8_i32 :
    i8Table = [0, 1, 1, 2, 3, 5, 8, 13, 21, 34, 55, 89] ∧
    cursorOutputAt i8Table 11 = some 89 ∧
    cursorOutputAt i8Table 12 = none ∧
    nth_fibonacci_signed 8 i8Table 10 = some 55 ∧
    nth_fibonacci_signed 8 i8Table (-10) = some (-55) ∧
    nth_fibonacci_signed 8 i8Table 12 = none ∧
    nth_fibonacci_signed 32 i32Table 10 = some 55 ∧
    nth_fibonacci_signed 32 i32Table 50 = none := by
  decide

/-- C8: for the arbitrary-precision domain, every fresh `fibonacci_iter()`
starts at index 0 and its `k`-th value is present and equals the true
Fibonacci number `fib k`, for every `k` — the iterator never ends. -/
theorem rug_iterator_yields_every_fibonacci :
    ∀ k : Nat, rugOutputAt k = some ((Nat.fib k : Int)) := by
  intro k
  exact rugOutputAt_eq_fib k

/-- C1 (refuting evaluation): for the `u128` domain the claimed out-of-range
emptiness fails on the code: the `*n as usize` cast truncates modulo
`2 ^ 64`, so the index `2 ^ 64`, far beyond the 187-entry table, yields
`Some(0)` instead of `None`. -/
theorem u128_lookup_truncates_large_index :
    nth_fibonacci_unsigned u128Table (2 ^ 64) = some 0 ∧
    u128Table.length ≤ 2 ^ 64 := by
  decide

/-- C2 (refuting evaluation): the `rug::Integer` lookup negates on the wrong
parity of the magnitude.  The code yields `nth_fibonacci(-1) = Some(-1)` and
`nth_fibonacci(-2) = Some(1)`, while the bidirectional extension (and the
claim) require `F(-1) = F(1) = 1` and `F(-2) = -F(2) = -1`. -/
theorem rug_negative_index_wrong_parity :
    rug_nth_fibonacci (-1) = some (-1) ∧
    rug_nth_fibonacci (-2) = some 1 ∧
    rug_nth_fibonacci 1 = some 1 ∧
    rug_nth_fibonacci 2 = some 1 := by
  decide

/-- C6 (refuting evaluation): at the signed minimum (`i8::MIN = -128`) the
expression `-*n` overflows, so the debug-mode (checked) lookup panics —
modelled as the outer `none` — and the release-mode lookup only returns
`None` by first producing the wrapped value `-128` instead of `128`.  An
ordinary negative index such as `-5` returns normally. -/
theorem signed_min_negation_overflows :
    nth_fibonacci_signed_dbg 8 i8Table (-128) = none ∧
    wrapToWidth 8 (-(-128 : Int)) = -128 ∧
    nth_fibonacci_signed 8 i8Table (-128) = none ∧
    nth_fibonacci_signed_dbg 8 i8Table (-5) = some (some 5) := by
  decide
